import Mathlib

/-!
Shallow embedding of `wait-for` (src/src/main.rs): a CLI that polls a
TCP `host:port` or HTTP(S) URL target until it is reachable, then runs an
optional trailing command. External effects (URL validation by the `url`
crate, DNS resolution, TCP connects, HTTP requests, process spawning,
wall-clock time) are modelled as oracle parameters; everything the Rust
source computes itself is translated directly.
-/

namespace WaitFor

/-- The parsed target, mirroring `enum Target` in main.rs. -/
inductive Target where
  | hostPort (host : String) (port : Nat)
  | url (raw : String)
deriving DecidableEq

/-- The four failure cases of `parse_target` (anyhow error messages in the
source, distinguished here by kind). -/
inductive ParseError where
  | invalidUrl
  | invalidPort
  | emptyHost
  | invalidFormat
deriving DecidableEq

/-- The error message text attached to each `parse_target` failure in main.rs. -/
def parseErrorMsg : ParseError → String
  | ParseError.invalidUrl => "Invalid URL format"
  | ParseError.invalidPort => "Invalid port number"
  | ParseError.emptyHost => "Host cannot be empty"
  | ParseError.invalidFormat => "Target must be in format 'host:port' or 'http(s)://...'"

/-- `target.starts_with("http://") || target.starts_with("https://")` from
main.rs line 135, on the character-level view of the string. -/
def startsHttp (cs : List Char) : Bool :=
  "http://".toList.isPrefixOf cs || "https://".toList.isPrefixOf cs

/-- `target.rfind(':')` together with the two slices `&target[..colon_pos]`
and `&target[colon_pos + 1..]`: splits a character list at its LAST colon,
returning (host part, port part), or `none` when no colon occurs. -/
def rfindColon : List Char → Option (List Char × List Char)
  | [] => none
  | c :: rest =>
    match rfindColon rest with
    | some (h, t) => some (c :: h, t)
    | none => if c = ':' then some ([], rest) else none

/-- Digit-string to number: `none` unless the list is a nonempty run of
ASCII digits. -/
def parseDigits (cs : List Char) : Option Nat :=
  if cs.isEmpty then none
  else if cs.all Char.isDigit then
    some (cs.foldl (fun a c => a * 10 + (c.toNat - 48)) 0)
  else none

/-- Rust `str::parse::<u16>()`: optional leading '+', then one or more
ASCII digits, value below 2^16 (checked overflow). -/
def parseU16 (cs : List Char) : Option Nat :=
  let body := match cs with
    | '+' :: rest => rest
    | _ => cs
  match parseDigits body with
  | some n => if n < 65536 then some n else none
  | none => none

/-- `parse_target` from main.rs lines 134-153. `urlOk` is the oracle for
`Url::parse(target).is_ok()` (the external `url` crate). -/
def parse_target (urlOk : String → Bool) (target : String) : Except ParseError Target :=
  if startsHttp target.toList then
    if urlOk target then Except.ok (Target.url target)
    else Except.error ParseError.invalidUrl
  else
    match rfindColon target.toList with
    | some (host, portChars) =>
      match parseU16 portChars with
      | some port =>
        if host.isEmpty then Except.error ParseError.emptyHost
        else Except.ok (Target.hostPort (String.mk host) port)
      | none => Except.error ParseError.invalidPort
    | none => Except.error ParseError.invalidFormat

/-- Bool-valued contiguous-sublist test: `containsSub needle hay` is true
when `needle` occurs consecutively inside `hay`. -/
def containsSub {α : Type} [DecidableEq α] (needle : List α) : List α → Bool
  | [] => needle.isEmpty
  | h :: t => needle.isPrefixOf (h :: t) || containsSub needle t

/-- `enum ColorChoice` from main.rs. -/
inductive ColorChoice where
  | auto
  | always
  | never
deriving DecidableEq

/-- `should_use_color` from main.rs lines 112-126. The environment and the
terminal are oracles: `noColorSet` models `env::var("NO_COLOR").is_ok()`,
`forceColorSet` models `env::var("FORCE_COLOR").is_ok()`, and
`stdoutIsTerm` models `IsTerminal::is_terminal(&stdout())`. -/
def should_use_color (choice : ColorChoice) (noColorSet forceColorSet stdoutIsTerm : Bool) :
    Bool :=
  match choice with
  | ColorChoice.always => true
  | ColorChoice.never => false
  | ColorChoice.auto =>
    if noColorSet then false
    else if forceColorSet then true
    else stdoutIsTerm

/-- The failure kinds a single check attempt can produce (anyhow errors in
the source, distinguished here by kind; `httpStatusFailed` carries the
HTTP status code). -/
inductive CheckErr where
  | resolutionFailed
  | noAddresses
  | connectFailed
  | requestFailed
  | httpStatusFailed (status : Nat)
deriving DecidableEq

/-- The error message text a check failure carries, as in main.rs. -/
def checkErrMsg : CheckErr → String
  | CheckErr.resolutionFailed => "Failed to resolve address"
  | CheckErr.noAddresses => "No addresses found"
  | CheckErr.connectFailed => "Failed to connect"
  | CheckErr.requestFailed => "Failed to send HTTP request"
  | CheckErr.httpStatusFailed st => "HTTP request failed with status: " ++ toString st

/-- One line printed by the program: `out` on stdout, `err` on stderr. -/
inductive Line where
  | out (msg : String)
  | err (msg : String)
deriving DecidableEq

/-- `let connect_timeout = Duration::from_secs(1)` in `check_tcp`. -/
def connectTimeoutSecs : Nat := 1

/-- `.timeout(Duration::from_secs(2))` on the HTTP client in `check_http`. -/
def clientTimeoutSecs : Nat := 2

/-- The network oracle for one `check_tcp` call: `resolve` models
`to_socket_addrs()` (error, or the resolved address list), `connect a d`
models `TcpStream::connect_timeout(&a, d)` succeeding, and `name` renders
an address for the failure message. -/
structure TcpNet (α : Type) where
  resolve : Except Unit (List α)
  connect : α → Nat → Bool
  name : α → String

/-- The `for socket_addr in socket_addrs` loop of `check_tcp` (main.rs
lines 168-184): try each address with the fixed connect timeout, stop at
the first success, collect the printed lines and the attempts made
(address paired with the timeout used). -/
def tryConnect {α : Type} (connect : α → Nat → Bool) (name : α → String)
    (host : String) (port : Nat) (quiet : Bool) :
    List α → Except CheckErr Unit × List Line × List (α × Nat)
  | [] => (Except.error CheckErr.connectFailed, [], [])
  | a :: rest =>
    if connect a connectTimeoutSecs then
      (Except.ok (),
       (if quiet then []
        else [Line.out ("Connection to " ++ host ++ ":" ++ toString port ++ " succeeded")]),
       [(a, connectTimeoutSecs)])
    else
      let r := tryConnect connect name host port quiet rest
      (r.1,
       (if quiet then [] else [Line.err ("Connection to " ++ name a ++ " failed")]) ++ r.2.1,
       (a, connectTimeoutSecs) :: r.2.2)

/-- `check_tcp` from main.rs lines 155-185: resolve, fail on resolution
error or empty result, otherwise try the candidates in order. Returns the
check result, the lines printed, and the connect attempts made. -/
def check_tcp {α : Type} (net : TcpNet α) (host : String) (port : Nat) (quiet : Bool) :
    Except CheckErr Unit × List Line × List (α × Nat) :=
  match net.resolve with
  | Except.error _ => (Except.error CheckErr.resolutionFailed, [], [])
  | Except.ok addrs =>
    if addrs.isEmpty then (Except.error CheckErr.noAddresses, [], [])
    else tryConnect net.connect net.name host port quiet addrs

/-- `check_http` from main.rs lines 187-213. `send d` is the oracle for
building a client with timeout `d` and issuing the blocking GET: a
transport error, or the response status code. Success is `is_success()`,
i.e. a 2xx status. -/
def check_http (send : Nat → Except Unit Nat) (url : String) (quiet : Bool) :
    Except CheckErr Unit × List Line :=
  match send clientTimeoutSecs with
  | Except.error _ => (Except.error CheckErr.requestFailed, [])
  | Except.ok status =>
    if 200 ≤ status ∧ status < 300 then
      (Except.ok (),
       if quiet then []
       else [Line.out ("HTTP request to " ++ url ++ " succeeded (status: " ++
         toString status ++ ")")])
    else (Except.error (CheckErr.httpStatusFailed status), [])

/-- `execute_command` can only fail by failing to spawn the child. -/
inductive ExecErr where
  | spawnFailed
deriving DecidableEq

/-- What `execute_command` does on success: return to `main` (empty
command), or terminate the process with a code via `process::exit`. -/
inductive ExecOutcome where
  | returned
  | exited (code : Nat)
deriving DecidableEq

/-- `execute_command` from main.rs lines 215-229. `spawn prog args` is the
oracle for `Command::new(prog).args(args).status()`: spawn error, or the
child's exit code (`none` when the child had no code, e.g. was killed by a
signal). On completion the parent exits with `status.code().unwrap_or(1)`. -/
def execute_command (spawn : String → List String → Except Unit (Option Nat)) :
    List String → Except ExecErr ExecOutcome
  | [] => Except.ok ExecOutcome.returned
  | program :: args =>
    match spawn program args with
    | Except.error _ => Except.error ExecErr.spawnFailed
    | Except.ok code => Except.ok (ExecOutcome.exited (code.getD 1))

/-- How the retry loop can exit: the overall-timeout bail (carrying
`cli.timeout`), or a successful check. -/
inductive LoopExit where
  | timedOut (secs : Nat)
  | success
deriving DecidableEq

/-- The bail message of the overall-timeout branch in `main`. -/
def timeoutMsg (n : Nat) : String :=
  "Timeout waiting for service after " ++ toString n ++ " seconds"

/-- The `loop` of `main` (main.rs lines 258-287), fuel-indexed. `timeout`
is `cli.timeout` (0 means no overall timeout), `elapsed i` is the oracle
for `start_time.elapsed()` in seconds at the start of iteration `i`, and
`check i quiet` is the dispatched checker call of iteration `i`. Returns
`none` when the fuel runs out with the loop still going, and accumulates
the lines printed. -/
def runLoop (timeout : Nat) (quiet : Bool) (elapsed : Nat → Nat)
    (check : Nat → Bool → Except CheckErr Unit × List Line) :
    Nat → Nat → Option LoopExit × List Line
  | 0, _ => (none, [])
  | fuel + 1, i =>
    if timeout ≠ 0 ∧ elapsed i ≥ timeout then
      (some (LoopExit.timedOut timeout), [])
    else
      match check i quiet with
      | (Except.ok _, log) =>
        (some LoopExit.success,
         log ++ if quiet then [] else [Line.out "Service is available!"])
      | (Except.error e, log) =>
        let r := runLoop timeout quiet elapsed check fuel (i + 1)
        (r.1,
         log ++
           (if quiet then []
            else [Line.err ("Check failed: " ++ checkErrMsg e),
                  Line.err "Retrying in 1 second..."]) ++ r.2)

/-- The target as rendered in the "Waiting for ..." line of `main`. -/
def targetName : Target → String
  | Target.hostPort h p => h ++ ":" ++ toString p
  | Target.url u => u

/-- How a run of `main` ends: still looping when the fuel ran out (model
artifact), `main` returning an anyhow error (the process exits 1), or an
explicit `process::exit` code. -/
inductive MainResult where
  | running
  | fatalError (msg : String)
  | exitCode (code : Nat)
deriving DecidableEq

/-- The process exit code of a finished `MainResult`: a `main` returning
`Err` makes the process exit 1. -/
def exitCodeOf : MainResult → Option Nat
  | MainResult.running => none
  | MainResult.fatalError _ => some 1
  | MainResult.exitCode c => some c

/-- `main` from the "Waiting for" print onward (main.rs lines 247-291):
print the waiting line unless quiet, run the retry loop, then on success
run the trailing command and exit accordingly. -/
def runMain (quiet : Bool) (timeout : Nat) (target : Target) (elapsed : Nat → Nat)
    (check : Nat → Bool → Except CheckErr Unit × List Line)
    (spawn : String → List String → Except Unit (Option Nat))
    (command : List String) (fuel : Nat) : MainResult × List Line :=
  let waitLog : List Line :=
    if quiet then []
    else [Line.out ("Waiting for " ++ targetName target ++ " to become available...")]
  let r := runLoop timeout quiet elapsed check fuel 0
  let log := waitLog ++ r.2
  match r.1 with
  | none => (MainResult.running, log)
  | some (LoopExit.timedOut n) => (MainResult.fatalError (timeoutMsg n), log)
  | some LoopExit.success =>
    match execute_command spawn command with
    | Except.error ExecErr.spawnFailed =>
      (MainResult.fatalError "Failed to execute command", log)
    | Except.ok ExecOutcome.returned => (MainResult.exitCode 0, log)
    | Except.ok (ExecOutcome.exited c) => (MainResult.exitCode c, log)

/-- The checker dispatch of `main` (main.rs lines 266-269), per iteration:
`tcpNet i` and `httpSend i` are the network oracles of iteration `i`. -/
def checkOf {α : Type} (target : Target) (tcpNet : Nat → TcpNet α)
    (httpSend : Nat → Nat → Except Unit Nat) :
    Nat → Bool → Except CheckErr Unit × List Line :=
  fun i quiet =>
    match target with
    | Target.hostPort host port =>
      let r := check_tcp (tcpNet i) host port quiet
      (r.1, r.2.1)
    | Target.url u => check_http (httpSend i) u quiet

/-- A checker trace that fails with error `e` on the first `k` iterations
and succeeds from iteration `k` on. -/
def eventuallyOk (e : CheckErr) (k : Nat) : Nat → Bool → Except CheckErr Unit × List Line :=
  fun i _ => (if i < k then Except.error e else Except.ok (), [])

/-- A checker trace whose first attempt fails with `resolutionFailed` and
whose second attempt succeeds. -/
def resolutionThenOk : Nat → Bool → Except CheckErr Unit × List Line :=
  fun i _ =>
    (if i = 0 then Except.error CheckErr.resolutionFailed else Except.ok (), [])

/-- True when a printed line is compatible with quiet mode: no stdout line
mentions "Waiting for" and no stderr line mentions "Connection to". -/
def lineClean : Line → Bool
  | Line.out m => !(containsSub "Waiting for".toList m.toList)
  | Line.err m => !(containsSub "Connection to".toList m.toList)

/-- All printed lines are compatible with quiet mode. -/
def quietClean (log : List Line) : Bool := log.all lineClean

end WaitFor

namespace WaitFor

theorem rfindColon_eq_none (cs : List Char) (h : ':' ∉ cs) : rfindColon cs = none := by
  induction cs with
  | nil => rfl
  | cons c rest ih =>
    simp only [List.mem_cons, not_or] at h
    have hc : ¬(c = ':') := fun e => h.1 e.symm
    simp [rfindColon, ih h.2, hc]

theorem not_mem_of_rfindColon_none (cs : List Char) (h : rfindColon cs = none) :
    ':' ∉ cs := by
  induction cs with
  | nil => simp
  | cons c rest ih =>
    simp only [rfindColon] at h
    cases hr : rfindColon rest with
    | some pr => rw [hr] at h; cases h
    | none =>
      rw [hr] at h
      by_cases hc : c = ':'
      · rw [if_pos hc] at h; cases h
      · simp only [List.mem_cons, not_or]
        exact ⟨fun e => hc e.symm, ih hr⟩

theorem rfindColon_of_split (h t : List Char) (ht : ':' ∉ t) :
    rfindColon (h ++ ':' :: t) = some (h, t) := by
  induction h with
  | nil => simp [rfindColon, rfindColon_eq_none t ht]
  | cons c h ih => simp [rfindColon, ih]

theorem rfindColon_split (cs : List Char) :
    ∀ h t, rfindColon cs = some (h, t) → cs = h ++ ':' :: t ∧ ':' ∉ t := by
  induction cs with
  | nil => intro h t he; cases he
  | cons c rest ih =>
    intro h t he
    simp only [rfindColon] at he
    cases hr : rfindColon rest with
    | some pr =>
      rw [hr] at he
      obtain ⟨h1, t1⟩ := pr
      obtain ⟨hcs, hnt⟩ := ih h1 t1 hr
      have hh : h = c :: h1 ∧ t = t1 := by
        constructor <;> cases he <;> rfl
      rw [hh.1, hh.2, hcs]
      exact ⟨rfl, hnt⟩
    | none =>
      rw [hr] at he
      by_cases hc : c = ':'
      · rw [if_pos hc] at he
        have hh : h = [] ∧ t = rest := by constructor <;> cases he <;> rfl
        rw [hh.1, hh.2, hc]
        exact ⟨rfl, not_mem_of_rfindColon_none rest hr⟩
      · rw [if_neg hc] at he; cases he

theorem startsHttp_eq_false_of_no_colon (cs : List Char) (h : ':' ∉ cs) :
    startsHttp cs = false := by
  unfold startsHttp
  rw [Bool.or_eq_false_iff]
  constructor
  · cases hp : List.isPrefixOf "http://".toList cs with
    | false => rfl
    | true =>
      exfalso
      have hpre : "http://".toList <+: cs := List.isPrefixOf_iff_prefix.mp hp
      exact h (hpre.subset (by decide))
  · cases hp : List.isPrefixOf "https://".toList cs with
    | false => rfl
    | true =>
      exfalso
      have hpre : "https://".toList <+: cs := List.isPrefixOf_iff_prefix.mp hp
      exact h (hpre.subset (by decide))

/-- C1: `parse_target` classifies every input as the spec states: an
http(s)-prefixed string accepted by the URL parser yields `Url` carrying
the raw string; a non-prefixed string splitting at its last colon into a
nonempty host and a valid u16 port yields `HostPort(host, port)`; a string
with no colon fails with `InvalidFormat`, whose message contains
"Target must be in format". -/
theorem parse_target_spec (urlOk : String → Bool) (s : String) :
    (startsHttp s.toList = true → urlOk s = true →
      parse_target urlOk s = Except.ok (Target.url s)) ∧
    (∀ h t p, startsHttp s.toList = false → s.toList = h ++ ':' :: t → ':' ∉ t →
      parseU16 t = some p → h ≠ [] →
      parse_target urlOk s = Except.ok (Target.hostPort (String.mk h) p)) ∧
    (':' ∉ s.toList →
      parse_target urlOk s = Except.error ParseError.invalidFormat ∧
      containsSub "Target must be in format".toList
        (parseErrorMsg ParseError.invalidFormat).toList = true) := by
  refine ⟨?_, ?_, ?_⟩
  · intro hp hu
    unfold parse_target
    rw [hp, if_pos rfl, hu, if_pos rfl]
  · intro h t p hp hsplit hnt hport hne
    have hempty : h.isEmpty = false := by
      cases h with
      | nil => exact absurd rfl hne
      | cons a l => rfl
    unfold parse_target
    rw [hp]
    simp only [Bool.false_eq_true, if_false, hsplit, rfindColon_of_split h t hnt,
      hport, hempty]
  · intro hnc
    constructor
    · unfold parse_target
      rw [startsHttp_eq_false_of_no_colon s.toList hnc]
      simp only [Bool.false_eq_true, if_false]
      rw [rfindColon_eq_none s.toList hnc]
    · decide

/-- C1 witness: concrete instances exercising each branch of the
classification. -/
theorem parse_target_spec_witness :
    parse_target (fun _ => true) "http://x" = Except.ok (Target.url "http://x") ∧
    parse_target (fun _ => true) "db:5432" =
      Except.ok (Target.hostPort (String.mk ['d', 'b']) 5432) ∧
    (parse_target (fun _ => true) "invalid-target" = Except.error ParseError.invalidFormat ∧
      containsSub "Target must be in format".toList
        (parseErrorMsg ParseError.invalidFormat).toList = true) :=
  ⟨(parse_target_spec (fun _ => true) "http://x").1 (by decide) rfl,
   (parse_target_spec (fun _ => true) "db:5432").2.1
     ['d', 'b'] ['5', '4', '3', '2'] 5432 (by decide) (by decide) (by decide)
     (by decide) (by decide),
   (parse_target_spec (fun _ => true) "invalid-target").2.2 (by decide)⟩

/-- C7 counterexample: the target ":x" is a non-URL target containing a
colon whose host portion (before the last colon) is empty, yet
`parse_target` fails with `InvalidPort`, not `EmptyHost`: the port suffix
is validated before the host is checked. -/
theorem parse_target_emptyHost_counterexample :
    startsHttp ":x".toList = false ∧
    ":x".toList = ([] : List Char) ++ ':' :: "x".toList ∧
    parse_target (fun _ => true) ":x" = Except.error ParseError.invalidPort ∧
    ParseError.invalidPort ≠ ParseError.emptyHost :=
  ⟨by decide, rfl, rfl, by decide⟩

/-- C7 (amended): for an http(s)-prefixed target rejected by the URL
parser, `parse_target` fails with `InvalidUrl`; for a non-prefixed target
containing a colon, it fails with `InvalidPort` when the suffix after the
last colon is not a valid u16 (regardless of the host), and with
`EmptyHost` when the host is empty AND the port suffix is a valid u16
(the port is validated first). -/
theorem parse_target_error_spec (urlOk : String → Bool) (s : String) :
    (startsHttp s.toList = true → urlOk s = false →
      parse_target urlOk s = Except.error ParseError.invalidUrl) ∧
    (∀ h t, startsHttp s.toList = false → s.toList = h ++ ':' :: t → ':' ∉ t →
      parseU16 t = none → parse_target urlOk s = Except.error ParseError.invalidPort) ∧
    (∀ t p, startsHttp s.toList = false → s.toList = ':' :: t → ':' ∉ t →
      parseU16 t = some p → parse_target urlOk s = Except.error ParseError.emptyHost) := by
  refine ⟨?_, ?_, ?_⟩
  · intro hp hu
    unfold parse_target
    rw [hp, if_pos rfl, hu]
    rfl
  · intro h t hp hsplit hnt hport
    unfold parse_target
    rw [hp]
    simp only [Bool.false_eq_true, if_false, hsplit, rfindColon_of_split h t hnt, hport]
  · intro t p hp hsplit hnt hport
    unfold parse_target
    rw [hp]
    have hsplit2 : s.toList = ([] : List Char) ++ ':' :: t := hsplit
    simp only [Bool.false_eq_true, if_false, hsplit2,
      rfindColon_of_split [] t hnt, hport]
    rfl

/-- C7 witness: concrete instances of each error branch. -/
theorem parse_target_error_spec_witness :
    parse_target (fun _ => false) "http://bad url" = Except.error ParseError.invalidUrl ∧
    parse_target (fun _ => true) "db:notaport" = Except.error ParseError.invalidPort ∧
    parse_target (fun _ => true) ":8080" = Except.error ParseError.emptyHost :=
  ⟨(parse_target_error_spec (fun _ => false) "http://bad url").1 (by decide) rfl,
   (parse_target_error_spec (fun _ => true) "db:notaport").2.1
     ['d', 'b'] "notaport".toList (by decide) (by decide) (by decide) (by decide),
   (parse_target_error_spec (fun _ => true) ":8080").2.2
     "8080".toList 8080 (by decide) (by decide) (by decide) (by decide)⟩

/-- C9: `parse_target` is total and the slicing around the last colon is
exact: whenever `rfindColon` splits the characters of the input it
returns an in-bounds partition `host ++ colon ++ port` of the whole input
with no colon in the port part (so the two slices taken in the source are
in bounds and on character boundaries), when it finds nothing the input
has no colon, and every input yields either a `Target` or an error value. -/
theorem parse_target_total (urlOk : String → Bool) (s : String) :
    (∀ h t, rfindColon s.toList = some (h, t) →
      s.toList = h ++ ':' :: t ∧ ':' ∉ t) ∧
    (rfindColon s.toList = none → ':' ∉ s.toList) ∧
    ((∃ tg, parse_target urlOk s = Except.ok tg) ∨
      (∃ e, parse_target urlOk s = Except.error e)) := by
  refine ⟨rfindColon_split s.toList, not_mem_of_rfindColon_none s.toList, ?_⟩
  cases h : parse_target urlOk s with
  | ok tg => exact Or.inl ⟨tg, rfl⟩
  | error e => exact Or.inr ⟨e, rfl⟩

/-- C9 witness: the partition and totality facts at the concrete target
"a:b". -/
theorem parse_target_total_witness :
    ("a:b".toList = ['a'] ++ ':' :: ['b'] ∧ ':' ∉ ['b']) ∧
    ((∃ tg, parse_target (fun _ => true) "a:b" = Except.ok tg) ∨
      (∃ e, parse_target (fun _ => true) "a:b" = Except.error e)) :=
  ⟨(parse_target_total (fun _ => true) "a:b").1 ['a'] ['b'] rfl,
   (parse_target_total (fun _ => true) "a:b").2.2⟩

/-- C10: `should_use_color` returns true for Always and false for Never
regardless of the environment; in Auto mode NO_COLOR takes precedence
over FORCE_COLOR (both set disables color), and with neither set the
decision is whether stdout is a terminal. -/
theorem should_use_color_spec :
    ∀ noColorSet forceColorSet stdoutIsTerm : Bool,
      should_use_color ColorChoice.always noColorSet forceColorSet stdoutIsTerm = true ∧
      should_use_color ColorChoice.never noColorSet forceColorSet stdoutIsTerm = false ∧
      (noColorSet = true →
        should_use_color ColorChoice.auto noColorSet forceColorSet stdoutIsTerm = false) ∧
      (noColorSet = false → forceColorSet = true →
        should_use_color ColorChoice.auto noColorSet forceColorSet stdoutIsTerm = true) ∧
      (noColorSet = false → forceColorSet = false →
        should_use_color ColorChoice.auto noColorSet forceColorSet stdoutIsTerm =
          stdoutIsTerm) := by
  decide

/-- C10 witness: the Auto-mode precedence at concrete environments,
including both variables set at once. -/
theorem should_use_color_spec_witness :
    should_use_color ColorChoice.always true true false = true ∧
    should_use_color ColorChoice.never false true true = false ∧
    should_use_color ColorChoice.auto true true true = false ∧
    should_use_color ColorChoice.auto false true false = true ∧
    should_use_color ColorChoice.auto false false true = true :=
  ⟨(should_use_color_spec true true false).1,
   (should_use_color_spec false true true).2.1,
   (should_use_color_spec true true true).2.2.1 rfl,
   (should_use_color_spec false true false).2.2.2.1 rfl rfl,
   (should_use_color_spec false false true).2.2.2.2 rfl rfl⟩

theorem tryConnect_all_fail {α : Type} (c : α → Nat → Bool) (nm : α → String)
    (h : String) (p : Nat) (q : Bool) (l : List α)
    (hf : ∀ x ∈ l, c x connectTimeoutSecs = false) :
    (tryConnect c nm h p q l).1 = Except.error CheckErr.connectFailed ∧
    (tryConnect c nm h p q l).2.2 = l.map (fun x => (x, connectTimeoutSecs)) := by
  induction l with
  | nil => exact ⟨rfl, rfl⟩
  | cons a rest ih =>
    have ha := hf a (List.mem_cons_self a rest)
    have ihr := ih fun x hx => hf x (List.mem_cons_of_mem a hx)
    simp only [tryConnect, ha, Bool.false_eq_true, if_false, List.map_cons]
    exact ⟨ihr.1, by rw [ihr.2]⟩

theorem tryConnect_first_success {α : Type} (c : α → Nat → Bool) (nm : α → String)
    (h : String) (p : Nat) (q : Bool) (pre post : List α) (a : α)
    (hf : ∀ x ∈ pre, c x connectTimeoutSecs = false)
    (ha : c a connectTimeoutSecs = true) :
    (tryConnect c nm h p q (pre ++ a :: post)).1 = Except.ok () ∧
    (tryConnect c nm h p q (pre ++ a :: post)).2.2 =
      pre.map (fun x => (x, connectTimeoutSecs)) ++ [(a, connectTimeoutSecs)] := by
  induction pre with
  | nil => simp [tryConnect, ha]
  | cons b rest ih =>
    have hb := hf b (List.mem_cons_self b rest)
    have ihr := ih fun x hx => hf x (List.mem_cons_of_mem b hx)
    simp only [List.cons_append, tryConnect, hb, Bool.false_eq_true, if_false,
      List.map_cons, List.append_eq]
    exact ⟨ihr.1, by rw [ihr.2]⟩

theorem tryConnect_connectFailed_iff {α : Type} (c : α → Nat → Bool) (nm : α → String)
    (h : String) (p : Nat) (q : Bool) (l : List α) :
    (tryConnect c nm h p q l).1 = Except.error CheckErr.connectFailed ↔
      ∀ x ∈ l, c x connectTimeoutSecs = false := by
  constructor
  · intro he
    induction l with
    | nil => simp
    | cons a rest ih =>
      by_cases hc : c a connectTimeoutSecs = true
      · exfalso
        simp only [tryConnect, hc, if_true] at he
        cases he
      · have hc2 : c a connectTimeoutSecs = false := by
          cases hcc : c a connectTimeoutSecs with
          | true => exact absurd hcc hc
          | false => rfl
        simp only [tryConnect, hc2, Bool.false_eq_true, if_false] at he
        intro x hx
        rcases List.mem_cons.mp hx with hx1 | hx2
        · rw [hx1]; exact hc2
        · exact ih he x hx2
  · intro hf
    exact (tryConnect_all_fail c nm h p q l hf).1

/-- C4: the TCP checker fails with `ResolutionFailed` when resolution
errors and with `NoAddresses` when it yields zero results; otherwise it
attempts a connect to each candidate in resolution order with the fixed
1-second per-attempt timeout, returns success at the first candidate that
connects without attempting the remaining ones, and fails with
`ConnectFailed` exactly when every candidate fails. -/
theorem check_tcp_spec {α : Type} (net : TcpNet α) (host : String) (port : Nat)
    (quiet : Bool) :
    connectTimeoutSecs = 1 ∧
    (∀ u, net.resolve = Except.error u →
      check_tcp net host port quiet = (Except.error CheckErr.resolutionFailed, [], [])) ∧
    (net.resolve = Except.ok [] →
      check_tcp net host port quiet = (Except.error CheckErr.noAddresses, [], [])) ∧
    (∀ pre a post, net.resolve = Except.ok (pre ++ a :: post) →
      (∀ x ∈ pre, net.connect x connectTimeoutSecs = false) →
      net.connect a connectTimeoutSecs = true →
      (check_tcp net host port quiet).1 = Except.ok () ∧
      (check_tcp net host port quiet).2.2 =
        pre.map (fun x => (x, connectTimeoutSecs)) ++ [(a, connectTimeoutSecs)]) ∧
    (∀ addrs, net.resolve = Except.ok addrs → addrs ≠ [] →
      ((check_tcp net host port quiet).1 = Except.error CheckErr.connectFailed ↔
        ∀ x ∈ addrs, net.connect x connectTimeoutSecs = false)) := by
  refine ⟨rfl, ?_, ?_, ?_, ?_⟩
  · intro u hr
    unfold check_tcp
    rw [hr]
  · intro hr
    unfold check_tcp
    rw [hr]
    rfl
  · intro pre a post hr hf ha
    have hne : (pre ++ a :: post).isEmpty = false := by
      cases pre with
      | nil => rfl
      | cons b l => rfl
    unfold check_tcp
    simp only [hr, hne, Bool.false_eq_true, if_false]
    exact tryConnect_first_success net.connect net.name host port quiet pre post a hf ha
  · intro addrs hr hne
    have hni : addrs.isEmpty = false := by
      cases addrs with
      | nil => exact absurd rfl hne
      | cons b l => rfl
    unfold check_tcp
    simp only [hr, hni, Bool.false_eq_true, if_false]
    exact tryConnect_connectFailed_iff net.connect net.name host port quiet addrs

/-- C4 witness: a resolution error, an empty resolution, a first-success
run that leaves the last candidate unattempted, and an all-fail run. -/
theorem check_tcp_spec_witness :
    check_tcp (TcpNet.mk (Except.error ()) (fun (_ : Nat) _ => false) (fun _ => "a"))
      "db" 5432 false = (Except.error CheckErr.resolutionFailed, [], []) ∧
    check_tcp (TcpNet.mk (Except.ok ([] : List Nat)) (fun _ _ => false) (fun _ => "a"))
      "db" 5432 false = (Except.error CheckErr.noAddresses, [], []) ∧
    ((check_tcp (TcpNet.mk (Except.ok [0, 1, 2]) (fun (a : Nat) _ => a == 1) (fun _ => "a"))
        "db" 5432 false).1 = Except.ok () ∧
      (check_tcp (TcpNet.mk (Except.ok [0, 1, 2]) (fun (a : Nat) _ => a == 1) (fun _ => "a"))
        "db" 5432 false).2.2 =
        [0].map (fun x => (x, connectTimeoutSecs)) ++ [(1, connectTimeoutSecs)]) ∧
    ((check_tcp (TcpNet.mk (Except.ok [0, 1, 2]) (fun (_ : Nat) _ => false) (fun _ => "a"))
        "db" 5432 false).1 = Except.error CheckErr.connectFailed) :=
  ⟨(check_tcp_spec (TcpNet.mk (Except.error ()) (fun (_ : Nat) _ => false) (fun _ => "a"))
      "db" 5432 false).2.1 () rfl,
   (check_tcp_spec (TcpNet.mk (Except.ok ([] : List Nat)) (fun _ _ => false) (fun _ => "a"))
      "db" 5432 false).2.2.1 rfl,
   (check_tcp_spec (TcpNet.mk (Except.ok [0, 1, 2]) (fun (a : Nat) _ => a == 1) (fun _ => "a"))
      "db" 5432 false).2.2.2.1 [0] 1 [2] rfl (by decide) (by decide),
   ((check_tcp_spec (TcpNet.mk (Except.ok [0, 1, 2]) (fun (_ : Nat) _ => false) (fun _ => "a"))
      "db" 5432 false).2.2.2.2 [0, 1, 2] rfl (by decide)).mpr (by decide)⟩

/-- C5: the HTTP checker uses the fixed 2-second client timeout, fails
with `RequestFailed` on a transport error, and on a response succeeds
exactly when the status is 2xx, failing with `HttpStatusFailed` carrying
the status otherwise. -/
theorem check_http_spec (send send2 : Nat → Except Unit Nat) (u : String) (quiet : Bool) :
    clientTimeoutSecs = 2 ∧
    (∀ e, send clientTimeoutSecs = Except.error e →
      check_http send u quiet = (Except.error CheckErr.requestFailed, [])) ∧
    (∀ st, send clientTimeoutSecs = Except.ok st →
      ((check_http send u quiet).1 = Except.ok () ↔ 200 ≤ st ∧ st < 300) ∧
      (¬(200 ≤ st ∧ st < 300) →
        (check_http send u quiet).1 = Except.error (CheckErr.httpStatusFailed st))) ∧
    (send clientTimeoutSecs = send2 clientTimeoutSecs →
      check_http send u quiet = check_http send2 u quiet) := by
  refine ⟨rfl, ?_, ?_, ?_⟩
  · intro e hs
    unfold check_http
    rw [hs]
  · intro st hs
    unfold check_http
    by_cases h2 : 200 ≤ st ∧ st < 300
    · simp [hs, h2]
    · simp [hs, h2]
  · intro hs
    unfold check_http
    rw [hs]

/-- C5 witness: a transport error, a 503 response, and a 200 response. -/
theorem check_http_spec_witness :
    check_http (fun _ => Except.error ()) "http://x" false =
      (Except.error CheckErr.requestFailed, []) ∧
    (check_http (fun _ => Except.ok 503) "http://x" false).1 =
      Except.error (CheckErr.httpStatusFailed 503) ∧
    (check_http (fun _ => Except.ok 200) "http://x" false).1 = Except.ok () :=
  ⟨(check_http_spec (fun _ => Except.error ()) (fun _ => Except.error ()) "http://x" false).2.1
      () rfl,
   ((check_http_spec (fun _ => Except.ok 503) (fun _ => Except.ok 503) "http://x" false).2.2.1
      503 rfl).2 (by decide),
   ((check_http_spec (fun _ => Except.ok 200) (fun _ => Except.ok 200) "http://x" false).2.2.1
      200 rfl).1.mpr (by decide)⟩

/-- C6: after a successful wait, an empty trailing command makes the
executor return success and the process exit 0; otherwise the command is
spawned, a spawn failure becomes `SpawnFailed` with a nonzero (1) process
exit, and on completion the parent exits with the child's exit code, or
with 1 when the child had no exit code. -/
theorem execute_command_spec (spawn : String → List String → Except Unit (Option Nat))
    (prog : String) (args : List String) (timeout : Nat) (target : Target)
    (elapsed : Nat → Nat) (check : Nat → Bool → Except CheckErr Unit × List Line)
    (fuel : Nat) (hs : (runLoop timeout false elapsed check fuel 0).1 = some LoopExit.success) :
    (execute_command spawn [] = Except.ok ExecOutcome.returned ∧
      (runMain false timeout target elapsed check spawn [] fuel).1 = MainResult.exitCode 0) ∧
    (∀ u, spawn prog args = Except.error u →
      execute_command spawn (prog :: args) = Except.error ExecErr.spawnFailed ∧
      exitCodeOf (runMain false timeout target elapsed check spawn (prog :: args) fuel).1 =
        some 1 ∧
      (runMain false timeout target elapsed check spawn (prog :: args) fuel).1 ≠
        MainResult.exitCode 0) ∧
    (∀ c, spawn prog args = Except.ok (some c) →
      execute_command spawn (prog :: args) = Except.ok (ExecOutcome.exited c) ∧
      (runMain false timeout target elapsed check spawn (prog :: args) fuel).1 =
        MainResult.exitCode c) ∧
    (spawn prog args = Except.ok none →
      execute_command spawn (prog :: args) = Except.ok (ExecOutcome.exited 1) ∧
      (runMain false timeout target elapsed check spawn (prog :: args) fuel).1 =
        MainResult.exitCode 1) := by
  refine ⟨⟨rfl, ?_⟩, ?_, ?_, ?_⟩
  · simp only [runMain, hs, execute_command]
  · intro u hu
    have he : execute_command spawn (prog :: args) = Except.error ExecErr.spawnFailed := by
      unfold execute_command
      simp only [hu]
    refine ⟨he, ?_, ?_⟩
    · simp only [runMain, hs, he]
      rfl
    · simp only [runMain, hs, he]
      intro hcontra
      cases hcontra
  · intro c hc
    have he : execute_command spawn (prog :: args) = Except.ok (ExecOutcome.exited c) := by
      unfold execute_command
      simp only [hc]
      rfl
    refine ⟨he, ?_⟩
    simp only [runMain, hs, he]
  · intro hn
    have he : execute_command spawn (prog :: args) = Except.ok (ExecOutcome.exited 1) := by
      unfold execute_command
      simp only [hn]
      rfl
    refine ⟨he, ?_⟩
    simp only [runMain, hs, he]

/-- C6 witness: a concrete successful wait followed by each executor
outcome (no command, failed spawn, child exiting 42, child killed with no
code). -/
theorem execute_command_spec_witness :
    ((runMain false 0 (Target.hostPort "db" 5432) (fun i => i)
        (fun _ _ => (Except.ok (), [])) (fun _ _ => Except.ok (some 42)) [] 1).1 =
      MainResult.exitCode 0) ∧
    (exitCodeOf (runMain false 0 (Target.hostPort "db" 5432) (fun i => i)
        (fun _ _ => (Except.ok (), [])) (fun _ _ => Except.error ()) ["nosuch"] 1).1 =
      some 1) ∧
    ((runMain false 0 (Target.hostPort "db" 5432) (fun i => i)
        (fun _ _ => (Except.ok (), [])) (fun _ _ => Except.ok (some 42)) ["sh", "-c"] 1).1 =
      MainResult.exitCode 42) ∧
    ((runMain false 0 (Target.hostPort "db" 5432) (fun i => i)
        (fun _ _ => (Except.ok (), [])) (fun _ _ => Except.ok none) ["sleep"] 1).1 =
      MainResult.exitCode 1) :=
  ⟨(execute_command_spec (fun _ _ => Except.ok (some 42)) "x" [] 0
      (Target.hostPort "db" 5432) (fun i => i) (fun _ _ => (Except.ok (), [])) 1 rfl).1.2,
   ((execute_command_spec (fun _ _ => Except.error ()) "nosuch" [] 0
      (Target.hostPort "db" 5432) (fun i => i) (fun _ _ => (Except.ok (), [])) 1 rfl).2.1
      () rfl).2.1,
   ((execute_command_spec (fun _ _ => Except.ok (some 42)) "sh" ["-c"] 0
      (Target.hostPort "db" 5432) (fun i => i) (fun _ _ => (Except.ok (), [])) 1 rfl).2.2.1
      42 rfl).2,
   ((execute_command_spec (fun _ _ => Except.ok none) "sleep" [] 0
      (Target.hostPort "db" 5432) (fun i => i) (fun _ _ => (Except.ok (), [])) 1 rfl).2.2.2
      rfl).2⟩

theorem runLoop_timeout_now (timeout : Nat) (quiet : Bool) (elapsed : Nat → Nat)
    (check : Nat → Bool → Except CheckErr Unit × List Line) (fuel i : Nat)
    (h1 : timeout ≠ 0) (h2 : elapsed i ≥ timeout) :
    runLoop timeout quiet elapsed check (fuel + 1) i =
      (some (LoopExit.timedOut timeout), []) := by
  simp only [runLoop]
  rw [if_pos ⟨h1, h2⟩]

theorem runLoop_exit_cases (timeout : Nat) (quiet : Bool) (elapsed : Nat → Nat)
    (check : Nat → Bool → Except CheckErr Unit × List Line) :
    ∀ fuel i r, (runLoop timeout quiet elapsed check fuel i).1 = some r →
      r = LoopExit.success ∨ (r = LoopExit.timedOut timeout ∧ timeout ≠ 0) := by
  intro fuel
  induction fuel with
  | zero => intro i r h; cases h
  | succ f ih =>
    intro i r h
    simp only [runLoop] at h
    by_cases hc : timeout ≠ 0 ∧ elapsed i ≥ timeout
    · rw [if_pos hc] at h
      cases h
      exact Or.inr ⟨rfl, hc.1⟩
    · rw [if_neg hc] at h
      cases hchk : check i quiet with
      | mk res log =>
        rw [hchk] at h
        cases res with
        | ok u =>
          cases h
          exact Or.inl rfl
        | error e => exact ih (i + 1) r h

theorem runLoop_eventuallyOk (e : CheckErr) (k : Nat) (quiet : Bool)
    (elapsed : Nat → Nat) :
    ∀ fuel i, k + 1 - i ≤ fuel → 1 ≤ fuel →
      (runLoop 0 quiet elapsed (eventuallyOk e k) fuel i).1 = some LoopExit.success := by
  intro fuel
  induction fuel with
  | zero => intro i h1 h2; exact absurd h2 (by decide)
  | succ f ih =>
    intro i h1 h2
    have hcond : ¬((0 : Nat) ≠ 0 ∧ elapsed i ≥ 0) := fun hc => hc.1 rfl
    simp only [runLoop, if_neg hcond]
    by_cases hik : i < k
    · simp only [eventuallyOk, if_pos hik]
      exact ih (i + 1) (by omega) (by omega)
    · simp only [eventuallyOk, if_neg hik]

/-- C2 counterexample: a run whose first check attempt fails with
`ResolutionFailed` is not aborted: the loop logs and retries, the second
attempt succeeds, and the whole program exits 0. -/
theorem loop_retries_resolution_counterexample :
    (resolutionThenOk 0 false).1 = Except.error CheckErr.resolutionFailed ∧
    (runMain false 15 (Target.hostPort "db" 5432) (fun i => i) resolutionThenOk
      (fun _ _ => Except.error ()) [] 2).1 = MainResult.exitCode 0 ∧
    exitCodeOf (MainResult.exitCode 0) = some 0 := by
  refine ⟨rfl, ?_, rfl⟩
  rfl

/-- C2 (amended): in the retry loop every checker failure — ConnectFailed,
RequestFailed, HttpStatusFailed, and equally ResolutionFailed and
NoAddresses — is recovered (logged and retried after 1 second) until a
check succeeds; no checker error kind aborts the program, and the only
non-success way out of the loop is the overall-timeout bail. -/
theorem loop_recovers_all_errors (e : CheckErr) (k : Nat) (quiet : Bool) (hk : 0 < k) :
    ((runLoop 0 quiet (fun i => i) (eventuallyOk e k) (k + 1) 0).1 =
      some LoopExit.success) ∧
    (Line.err "Retrying in 1 second..." ∈
      (runLoop 0 false (fun i => i) (eventuallyOk e k) (k + 1) 0).2) ∧
    (∀ timeout q2 elapsed check fuel i r,
      (runLoop timeout q2 elapsed check fuel i).1 = some r →
      r = LoopExit.success ∨ (r = LoopExit.timedOut timeout ∧ timeout ≠ 0)) := by
  refine ⟨runLoop_eventuallyOk e k quiet (fun i => i) (k + 1) 0 (by omega) (by omega),
    ?_, fun timeout q2 elapsed check fuel i r h =>
      runLoop_exit_cases timeout q2 elapsed check fuel i r h⟩
  cases k with
  | zero => exact absurd hk (by decide)
  | succ k2 =>
    have hcond : ¬((0 : Nat) ≠ 0 ∧ (fun i => i) 0 ≥ 0) := fun hc => hc.1 rfl
    have h0 : (0 : Nat) < k2 + 1 := by omega
    simp only [runLoop, if_neg hcond, eventuallyOk, if_pos h0]
    simp [List.mem_append, List.mem_cons]

/-- C2 amended-claim witness: every error kind is exercised at
`resolutionFailed`, with one failing attempt recovered before success,
and the only-timeout-aborts clause applied to a concrete timed-out run. -/
theorem loop_recovers_all_errors_witness :
    ((runLoop 0 true (fun i => i) (eventuallyOk CheckErr.resolutionFailed 1) 2 0).1 =
      some LoopExit.success) ∧
    (Line.err "Retrying in 1 second..." ∈
      (runLoop 0 false (fun i => i) (eventuallyOk CheckErr.resolutionFailed 1) 2 0).2) ∧
    (LoopExit.timedOut 5 = LoopExit.success ∨
      (LoopExit.timedOut 5 = LoopExit.timedOut 5 ∧ (5 : Nat) ≠ 0)) :=
  ⟨(loop_recovers_all_errors CheckErr.resolutionFailed 1 true (by decide)).1,
   (loop_recovers_all_errors CheckErr.resolutionFailed 1 true (by decide)).2.1,
   (loop_recovers_all_errors CheckErr.resolutionFailed 1 true (by decide)).2.2
     5 true (fun _ => 9) (fun _ _ => (Except.ok (), [])) 1 0 (LoopExit.timedOut 5) rfl⟩

theorem containsSub_of_parts {α : Type} [DecidableEq α] (p n s : List α) :
    containsSub n (p ++ n ++ s) = true := by
  induction p with
  | nil =>
    cases n with
    | nil =>
      cases s with
      | nil => rfl
      | cons b t => simp [containsSub, List.isPrefixOf]
    | cons a t =>
      have hpre : (a :: t).isPrefixOf (a :: (t ++ s)) = true :=
        List.isPrefixOf_iff_prefix.mpr ⟨s, by simp⟩
      simp only [List.nil_append, List.cons_append, containsSub, List.append_eq, hpre,
        Bool.true_or]
  | cons b p ih =>
    simp only [List.cons_append, containsSub, List.append_eq, ih, Bool.or_true]

theorem timeoutMsg_toList (n : Nat) :
    (timeoutMsg n).toList =
      "Timeout waiting for service after ".toList ++ (toString n).toList ++
        " seconds".toList := rfl

/-- C3: on every loop iteration with a configured finite timeout, once the
elapsed time reaches the timeout the loop (and the whole run) fails with
the Timeout error — whose message contains the configured number of
seconds — before running the checker; with timeout 0 the loop can never
exit with Timeout. -/
theorem loop_timeout_spec (timeout : Nat) (quiet : Bool) (elapsed : Nat → Nat)
    (tg : Target) (spawn : String → List String → Except Unit (Option Nat))
    (command : List String) (fuel i : Nat) :
    (∀ check, timeout ≠ 0 → elapsed i ≥ timeout →
      runLoop timeout quiet elapsed check (fuel + 1) i =
        (some (LoopExit.timedOut timeout), [])) ∧
    (∀ check, timeout ≠ 0 → elapsed 0 ≥ timeout →
      (runMain quiet timeout tg elapsed check spawn command (fuel + 1)).1 =
        MainResult.fatalError (timeoutMsg timeout)) ∧
    containsSub (toString timeout).toList (timeoutMsg timeout).toList = true ∧
    (timeout = 0 → ∀ check f j n,
      (runLoop timeout quiet elapsed check f j).1 ≠ some (LoopExit.timedOut n)) := by
  refine ⟨?_, ?_, ?_, ?_⟩
  · intro check h1 h2
    exact runLoop_timeout_now timeout quiet elapsed check fuel i h1 h2
  · intro check h1 h2
    have hl := runLoop_timeout_now timeout quiet elapsed check fuel 0 h1 h2
    simp only [runMain, hl]
  · rw [timeoutMsg_toList]
    exact containsSub_of_parts "Timeout waiting for service after ".toList
      (toString timeout).toList " seconds".toList
  · intro h0 check f j n hcontra
    subst h0
    rcases runLoop_exit_cases 0 quiet elapsed check f j (LoopExit.timedOut n) hcontra with
      h1 | h2
    · cases h1
    · exact h2.2 rfl

/-- C3 witness: a run with timeout 7 whose elapsed time has reached 7
fails with the Timeout error carrying 7, and a run with timeout 0 never
produces a Timeout exit. -/
theorem loop_timeout_spec_witness :
    runLoop 7 false (fun _ => 7) (fun _ _ => (Except.ok (), [])) 1 0 =
      (some (LoopExit.timedOut 7), []) ∧
    (runMain false 7 (Target.url "http://x") (fun _ => 7)
      (fun _ _ => (Except.ok (), [])) (fun _ _ => Except.ok none) [] 1).1 =
      MainResult.fatalError (timeoutMsg 7) ∧
    containsSub (toString 7).toList (timeoutMsg 7).toList = true ∧
    (runLoop 0 false (fun _ => 7) (fun _ _ => (Except.error CheckErr.connectFailed, [])) 3 0).1 ≠
      some (LoopExit.timedOut 4) :=
  ⟨(loop_timeout_spec 7 false (fun _ => 7) (Target.url "http://x")
      (fun _ _ => Except.ok none) [] 0 0).1 (fun _ _ => (Except.ok (), [])) (by decide)
      (by decide),
   (loop_timeout_spec 7 false (fun _ => 7) (Target.url "http://x")
      (fun _ _ => Except.ok none) [] 0 0).2.1 (fun _ _ => (Except.ok (), [])) (by decide)
      (by decide),
   (loop_timeout_spec 7 false (fun _ => 7) (Target.url "http://x")
      (fun _ _ => Except.ok none) [] 0 0).2.2.1,
   (loop_timeout_spec 0 false (fun _ => 7) (Target.url "http://x")
      (fun _ _ => Except.ok none) [] 0 0).2.2.2 rfl
      (fun _ _ => (Except.error CheckErr.connectFailed, [])) 3 0 4⟩

theorem tryConnect_fst_quiet {α : Type} (c : α → Nat → Bool) (nm : α → String)
    (h : String) (p : Nat) (q q2 : Bool) :
    ∀ l : List α, (tryConnect c nm h p q l).1 = (tryConnect c nm h p q2 l).1 := by
  intro l
  induction l with
  | nil => rfl
  | cons a rest ih =>
    simp only [tryConnect]
    by_cases hc : c a connectTimeoutSecs = true
    · simp [hc]
    · have hc2 : c a connectTimeoutSecs = false := by
        cases hcc : c a connectTimeoutSecs with
        | true => exact absurd hcc hc
        | false => rfl
      simp only [hc2, Bool.false_eq_true, if_false]
      exact ih

theorem tryConnect_quiet_log {α : Type} (c : α → Nat → Bool) (nm : α → String)
    (h : String) (p : Nat) :
    ∀ l : List α, (tryConnect c nm h p true l).2.1 = [] := by
  intro l
  induction l with
  | nil => rfl
  | cons a rest ih =>
    simp only [tryConnect]
    by_cases hc : c a connectTimeoutSecs = true
    · simp [hc]
    · have hc2 : c a connectTimeoutSecs = false := by
        cases hcc : c a connectTimeoutSecs with
        | true => exact absurd hcc hc
        | false => rfl
      simp only [hc2, Bool.false_eq_true, if_false, if_pos rfl, List.nil_append]
      exact ih

theorem checkOf_fst_quiet {α : Type} (target : Target) (tcpNet : Nat → TcpNet α)
    (httpSend : Nat → Nat → Except Unit Nat) (i : Nat) (q q2 : Bool) :
    (checkOf target tcpNet httpSend i q).1 = (checkOf target tcpNet httpSend i q2).1 := by
  cases target with
  | hostPort host port =>
    simp only [checkOf, check_tcp]
    cases hres : (tcpNet i).resolve with
    | error u => simp [hres]
    | ok addrs =>
      by_cases he : addrs.isEmpty = true
      · simp [hres, he]
      · simp only [hres, he, Bool.false_eq_true, if_false]
        exact tryConnect_fst_quiet (tcpNet i).connect (tcpNet i).name host port q q2 addrs
  | url u =>
    simp only [checkOf, check_http]
    cases hsend : httpSend i clientTimeoutSecs with
    | error e => simp [hsend]
    | ok st =>
      by_cases h2 : 200 ≤ st ∧ st < 300
      · simp [hsend, h2]
      · simp [hsend, h2]

theorem checkOf_quiet_log {α : Type} (target : Target) (tcpNet : Nat → TcpNet α)
    (httpSend : Nat → Nat → Except Unit Nat) (i : Nat) :
    (checkOf target tcpNet httpSend i true).2 = [] := by
  cases target with
  | hostPort host port =>
    simp only [checkOf, check_tcp]
    cases hres : (tcpNet i).resolve with
    | error u => simp [hres]
    | ok addrs =>
      by_cases he : addrs.isEmpty = true
      · simp [hres, he]
      · simp only [hres, he, Bool.false_eq_true, if_false]
        exact tryConnect_quiet_log (tcpNet i).connect (tcpNet i).name host port addrs
  | url u =>
    simp only [checkOf, check_http]
    cases hsend : httpSend i clientTimeoutSecs with
    | error e => simp [hsend]
    | ok st =>
      by_cases h2 : 200 ≤ st ∧ st < 300
      · simp [hsend, h2]
      · simp [hsend, h2]

theorem runLoop_fst_quiet (timeout : Nat) (elapsed : Nat → Nat)
    (check : Nat → Bool → Except CheckErr Unit × List Line) (q q2 : Bool)
    (hq : ∀ i, (check i q).1 = (check i q2).1) :
    ∀ fuel i,
      (runLoop timeout q elapsed check fuel i).1 =
        (runLoop timeout q2 elapsed check fuel i).1 := by
  intro fuel
  induction fuel with
  | zero => intro i; rfl
  | succ f ih =>
    intro i
    simp only [runLoop]
    by_cases hc : timeout ≠ 0 ∧ elapsed i ≥ timeout
    · rw [if_pos hc, if_pos hc]
    · rw [if_neg hc, if_neg hc]
      cases h1 : check i q with
      | mk r1 l1 =>
        cases h2 : check i q2 with
        | mk r2 l2 =>
          have hr : r1 = r2 := by
            have := hq i
            rw [h1, h2] at this
            exact this
          subst hr
          cases r1 with
          | ok u => rfl
          | error e => exact ih (i + 1)

theorem runLoop_quiet_log (timeout : Nat) (elapsed : Nat → Nat)
    (check : Nat → Bool → Except CheckErr Unit × List Line)
    (hlog : ∀ i, (check i true).2 = []) :
    ∀ fuel i, (runLoop timeout true elapsed check fuel i).2 = [] := by
  intro fuel
  induction fuel with
  | zero => intro i; rfl
  | succ f ih =>
    intro i
    simp only [runLoop]
    by_cases hc : timeout ≠ 0 ∧ elapsed i ≥ timeout
    · rw [if_pos hc]
    · rw [if_neg hc]
      cases h1 : check i true with
      | mk r1 l1 =>
        have hl : l1 = [] := by
          have := hlog i
          rw [h1] at this
          exact this
        subst hl
        cases r1 with
        | ok u => rfl
        | error e => simp [ih (i + 1)]

theorem runMain_fst_quiet (timeout : Nat) (target : Target) (elapsed : Nat → Nat)
    (check : Nat → Bool → Except CheckErr Unit × List Line)
    (spawn : String → List String → Except Unit (Option Nat)) (command : List String)
    (fuel : Nat)
    (hq : (runLoop timeout true elapsed check fuel 0).1 =
      (runLoop timeout false elapsed check fuel 0).1) :
    (runMain true timeout target elapsed check spawn command fuel).1 =
      (runMain false timeout target elapsed check spawn command fuel).1 := by
  simp only [runMain, hq]
  cases (runLoop timeout false elapsed check fuel 0).1 with
  | none => rfl
  | some le =>
    cases le with
    | timedOut n => rfl
    | success =>
      cases execute_command spawn command with
      | error e => cases e; rfl
      | ok o =>
        cases o with
        | returned => rfl
        | exited c => rfl

theorem runMain_quiet_log (timeout : Nat) (target : Target) (elapsed : Nat → Nat)
    (check : Nat → Bool → Except CheckErr Unit × List Line)
    (spawn : String → List String → Except Unit (Option Nat)) (command : List String)
    (fuel : Nat) (hlog : ∀ i, (check i true).2 = []) :
    (runMain true timeout target elapsed check spawn command fuel).2 = [] := by
  have hl := runLoop_quiet_log timeout elapsed check hlog fuel 0
  simp only [runMain, if_pos rfl, List.nil_append]
  cases hr : (runLoop timeout true elapsed check fuel 0).1 with
  | none => exact hl
  | some le =>
    cases le with
    | timedOut n => exact hl
    | success =>
      cases execute_command spawn command with
      | error e => cases e; exact hl
      | ok o =>
        cases o with
        | returned => exact hl
        | exited c => exact hl

/-- C8: with the quiet flag set, no "Waiting for" line reaches stdout and
no per-attempt "Connection to" line reaches stderr; and flipping only the
quiet flag — same target, timeout, network behavior, command — never
changes the run's outcome or exit code. -/
theorem quiet_mode_spec {α : Type} (target : Target) (tcpNet : Nat → TcpNet α)
    (httpSend : Nat → Nat → Except Unit Nat) (timeout : Nat) (elapsed : Nat → Nat)
    (spawn : String → List String → Except Unit (Option Nat)) (command : List String)
    (fuel : Nat) :
    quietClean (runMain true timeout target elapsed (checkOf target tcpNet httpSend)
      spawn command fuel).2 = true ∧
    (runMain true timeout target elapsed (checkOf target tcpNet httpSend)
        spawn command fuel).1 =
      (runMain false timeout target elapsed (checkOf target tcpNet httpSend)
        spawn command fuel).1 ∧
    exitCodeOf (runMain true timeout target elapsed (checkOf target tcpNet httpSend)
        spawn command fuel).1 =
      exitCodeOf (runMain false timeout target elapsed (checkOf target tcpNet httpSend)
        spawn command fuel).1 := by
  have hlog : ∀ i, (checkOf target tcpNet httpSend i true).2 = [] := fun i =>
    checkOf_quiet_log target tcpNet httpSend i
  have hfst : (runMain true timeout target elapsed (checkOf target tcpNet httpSend)
      spawn command fuel).1 =
    (runMain false timeout target elapsed (checkOf target tcpNet httpSend)
      spawn command fuel).1 :=
    runMain_fst_quiet timeout target elapsed (checkOf target tcpNet httpSend) spawn
      command fuel
      (runLoop_fst_quiet timeout elapsed (checkOf target tcpNet httpSend) true false
        (fun i => checkOf_fst_quiet target tcpNet httpSend i true false) fuel 0)
  refine ⟨?_, hfst, by rw [hfst]⟩
  rw [runMain_quiet_log timeout target elapsed (checkOf target tcpNet httpSend) spawn
    command fuel hlog]
  rfl

end WaitFor
